import Mathlib

/-!
Verification of the FilamentTracker `filament-recognition-service` response
interpreter and service boundary, as a shallow embedding in Lean 4.

Source files embedded:
  * `recognizer.py` — `ImageRecognizer._parse_json_response`,
    `ImageRecognizer._validate_and_normalize`, and the post-model-call part of
    `ImageRecognizer.recognize` (JSON interpretation, normalization,
    confidence).
  * `models.py` — `RecognizedFilamentData`, `RecognitionResponse`.
  * `app.py` — the `recognize_filament` endpoint's success/failure shaping.

Modelling conventions:
  * Python text is modelled as `List Char` (`Str`).  `str.strip` is modelled
    over the ASCII whitespace characters; exotic Unicode whitespace is not
    modelled (no claim exercises it).
  * Python/JSON numbers are modelled exactly, as `Int` (JSON integers) and
    `Rat` (JSON floats / results of `float(...)`).  IEEE-754 rounding is
    idealized away; every claim compares numbers only at values where the
    idealization agrees with CPython (1.75, 2.85, 3.0, small integers).
  * `json.loads` is modelled by `json_loads`, a recursive-descent parser of
    the JSON grammar as accepted by CPython's `json` module with its default
    strict settings.  Not modelled: the `NaN`/`Infinity` constant extensions
    and lone-surrogate escapes; no claim exercises them.
  * `float(str)` is modelled by `pyFloatOfString` (sign, digits, optional
    fraction and exponent).  `inf`/`nan`/underscore inputs are mapped to
    parse failure; in the one place the source uses `float(...)` (diameter),
    those inputs lead to `None` either way, so the model is observationally
    faithful there.
  * Exceptions are modelled with `Except Str`.  The pydantic model
    construction `RecognizedFilamentData(...)` is modelled as pydantic v2
    validation: a non-text, non-null value for a `Optional[str]` field is a
    `ValidationError`.  Every theorem below that exercises this path does so
    only at container values (lists/objects), which are rejected by both
    pydantic major versions.
-/

/-- Python text, modelled as a list of characters. -/
abbrev Str := List Char

/-- Characters stripped by Python `str.strip()` (ASCII whitespace). -/
def isPyWs (c : Char) : Bool :=
  c == ' ' || c == '\t' || c == '\n' || c == '\r' || c == '\x0b' || c == '\x0c'

/-- Python `str.strip()`. -/
def pyStrip (s : Str) : Str :=
  ((s.dropWhile isPyWs).reverse.dropWhile isPyWs).reverse

/-- `listStarts s pat` is true when `pat` is an initial run of `s`. -/
def listStarts : Str → Str → Bool
  | _, [] => true
  | [], _ :: _ => false
  | c :: cs, p :: ps => c == p && listStarts cs ps

/-- Python `s.startswith(pat)`. -/
def pyStartsWith (s pat : Str) : Bool := listStarts s pat

/-- Python `s.endswith(pat)`. -/
def pyEndsWith (s pat : Str) : Bool := listStarts s.reverse pat.reverse

/-- Python `s.find(c)`: index of the first occurrence (`None` for `-1`). -/
def pyFind (s : Str) (c : Char) : Option Nat :=
  s.findIdx? (fun d => d == c)

/-- Python `s.rfind(c)`: index of the last occurrence (`None` for `-1`). -/
def pyRfind (s : Str) (c : Char) : Option Nat :=
  match (s.reverse.findIdx? (fun d => d == c)) with
  | none => none
  | some i => some (s.length - 1 - i)

/-- Python slice `s[i:j+1]`. -/
def sliceIncl (s : Str) (i j : Nat) : Str :=
  (s.drop i).take (j + 1 - i)

/-- JSON values as produced by `json.loads`: `null`/`True`/`False`/`int`/
`float`/`str`/`list`/`dict`.  Dictionaries keep their key/value pairs in
insertion order; a duplicated key is resolved by `lookupLast` (CPython keeps
the last binding). -/
inductive JsonValue where
  | jnull : JsonValue
  | jbool : Bool → JsonValue
  | jint : Int → JsonValue
  | jfloat : Rat → JsonValue
  | jstr : Str → JsonValue
  | jarr : List JsonValue → JsonValue
  | jobj : List (Str × JsonValue) → JsonValue

/-- A parsed JSON object (Python `dict` holding JSON values). -/
abbrev Jobj := List (Str × JsonValue)

/-- Whitespace skipped by the JSON grammar (space, tab, newline, return). -/
def isJsonWs (c : Char) : Bool :=
  c == ' ' || c == '\t' || c == '\n' || c == '\r'

/-- Drop leading JSON whitespace. -/
def skipJsonWs (s : Str) : Str := s.dropWhile isJsonWs

/-- Value of an ASCII hex digit. -/
def hexVal (c : Char) : Option Nat :=
  if '0' ≤ c ∧ c ≤ '9' then some (c.toNat - '0'.toNat)
  else if 'a' ≤ c ∧ c ≤ 'f' then some (c.toNat - 'a'.toNat + 10)
  else if 'A' ≤ c ∧ c ≤ 'F' then some (c.toNat - 'A'.toNat + 10)
  else none

/-- Read exactly four hex digits. -/
def hex4 : Str → Option (Nat × Str)
  | a :: b :: c :: d :: rest =>
    match hexVal a, hexVal b, hexVal c, hexVal d with
    | some x, some y, some z, some w => some (((x * 16 + y) * 16 + z) * 16 + w, rest)
    | _, _, _, _ => none
  | _ => none

/-- Parse the body of a JSON string (the opening quote already consumed),
with CPython's strict rules: raw control characters are rejected, only the
standard escapes are accepted, `\uXXXX` surrogate pairs are combined.  Lone
surrogates are rejected (Lean `Char` cannot hold them; no claim uses them). -/
def parseJString : Nat → Str → Option (Str × Str)
  | 0, _ => none
  | _, [] => none
  | fuel + 1, c :: rest =>
    if c = '"' then some ([], rest)
    else if c = '\\' then
      match rest with
      | [] => none
      | e :: rest2 =>
        let simpleEsc : Option Char :=
          if e = '"' then some '"'
          else if e = '\\' then some '\\'
          else if e = '/' then some '/'
          else if e = 'b' then some '\x08'
          else if e = 'f' then some '\x0c'
          else if e = 'n' then some '\n'
          else if e = 'r' then some '\r'
          else if e = 't' then some '\t'
          else none
        match simpleEsc with
        | some ch =>
          match parseJString fuel rest2 with
          | some (tail, r) => some (ch :: tail, r)
          | none => none
        | none =>
          if e = 'u' then
            match hex4 rest2 with
            | none => none
            | some (n, rest3) =>
              if 0xd800 ≤ n ∧ n < 0xdc00 then
                match rest3 with
                | '\\' :: 'u' :: rest4 =>
                  match hex4 rest4 with
                  | some (m, rest5) =>
                    if 0xdc00 ≤ m ∧ m < 0xe000 then
                      let code := 0x10000 + (n - 0xd800) * 0x400 + (m - 0xdc00)
                      match parseJString fuel rest5 with
                      | some (tail, r) => some (Char.ofNat code :: tail, r)
                      | none => none
                    else none
                  | none => none
                | _ => none
              else if 0xdc00 ≤ n ∧ n < 0xe000 then none
              else
                match parseJString fuel rest3 with
                | some (tail, r) => some (Char.ofNat n :: tail, r)
                | none => none
          else none
    else if c.toNat < 0x20 then none
    else
      match parseJString fuel rest with
      | some (tail, r) => some (c :: tail, r)
      | none => none

/-- Take a maximal run of decimal digits. -/
def takeDigits (s : Str) : Str × Str :=
  (s.takeWhile Char.isDigit, s.dropWhile Char.isDigit)

/-- Numeric value of a digit run. -/
def digitsToNat (ds : Str) : Nat :=
  ds.foldl (fun acc c => acc * 10 + (c.toNat - '0'.toNat)) 0

/-- Mantissa, fraction length and decimal exponent to the exact rational
`m * 10 ^ (e - fracLen)`.  (Built with `mkRat` rather than `Rat` field
operations so that closed terms reduce.) -/
def ratOfParts (m : Int) (fracLen : Nat) (e : Int) : Rat :=
  let shift : Int := e - Int.ofNat fracLen
  if 0 ≤ shift then ((m * (Int.ofNat (Nat.pow 10 shift.toNat))) : Rat)
  else mkRat m (Nat.pow 10 (-shift).toNat)

/-- Assemble a JSON number from sign, integer digits, fraction digits and
exponent; integer when fraction and exponent are absent, float otherwise. -/
def mkJsonNumber (neg : Bool) (intDs : Str) (fracDs : Option Str)
    (expSignNeg : Bool) (expDs : Option Str) : JsonValue :=
  match fracDs, expDs with
  | none, none =>
    let n : Int := Int.ofNat (digitsToNat intDs)
    .jint (if neg then -n else n)
  | _, _ =>
    let f := (fracDs.getD [])
    let mantissa : Int := Int.ofNat (digitsToNat (intDs ++ f))
    let mantissa := if neg then -mantissa else mantissa
    let e : Int := Int.ofNat (digitsToNat (expDs.getD []))
    let e := if expSignNeg then -e else e
    .jfloat (ratOfParts mantissa f.length e)

/-- Parse the exponent part after `e`/`E`; `orig` is restored when the
exponent is malformed (the regex then matches no exponent). -/
def mkJsonExp (orig : Str) (r : Str) : Bool × Option Str × Str :=
  let (sgnNeg, r1) := match r with
    | '+' :: r2 => (false, r2)
    | '-' :: r2 => (true, r2)
    | _ => (false, r)
  let (ds, r2) := takeDigits r1
  if ds.isEmpty then (false, none, orig) else (sgnNeg, some ds, r2)

/-- Continue a JSON number after its integer digits: optional fraction,
optional exponent (each taken only when well-formed, as the regex does). -/
def mkJsonNumberCont (neg : Bool) (intDs : Str) (s : Str) : JsonValue × Str :=
  let (fracDs, s2) : Option Str × Str :=
    match s with
    | '.' :: r =>
      let (ds, r2) := takeDigits r
      if ds.isEmpty then (none, s) else (some ds, r2)
    | _ => (none, s)
  let (expSignNeg, expDs, s3) : Bool × Option Str × Str :=
    match s2 with
    | 'e' :: r => mkJsonExp s2 r
    | 'E' :: r => mkJsonExp s2 r
    | _ => (false, none, s2)
  (mkJsonNumber neg intDs fracDs expSignNeg expDs, s3)

/-- Parse a JSON number at the head of `s`, following CPython's `NUMBER_RE`:
`-?(0|[1-9][0-9]*)(\.[0-9]+)?([eE][-+]?[0-9]+)?`, matched greedily; the
unconsumed remainder is returned (a leading zero simply ends the integer
part, exactly as the regex does). -/
def parseJNumber (s : Str) : Option (JsonValue × Str) :=
  let (neg, s1) := match s with
    | '-' :: r => (true, r)
    | _ => (false, s)
  match s1 with
  | '0' :: r => some (mkJsonNumberCont neg ['0'] r)
  | c :: _ =>
    if '1' ≤ c ∧ c ≤ '9' then
      let (ds, r) := takeDigits s1
      some (mkJsonNumberCont neg ds r)
    else none
  | [] => none

mutual

/-- Parse one JSON value at the head of the input (leading whitespace
allowed), returning the value and the unconsumed remainder. -/
def parseJValue : Nat → Str → Option (JsonValue × Str)
  | 0, _ => none
  | fuel + 1, s =>
    match skipJsonWs s with
    | 'n' :: 'u' :: 'l' :: 'l' :: r => some (.jnull, r)
    | 't' :: 'r' :: 'u' :: 'e' :: r => some (.jbool true, r)
    | 'f' :: 'a' :: 'l' :: 's' :: 'e' :: r => some (.jbool false, r)
    | '"' :: r =>
      match parseJString (r.length + 1) r with
      | some (str, rest) => some (.jstr str, rest)
      | none => none
    | '\x7b' :: r =>
      match skipJsonWs r with
      | '\x7d' :: r2 => some (.jobj [], r2)
      | r' =>
        match parseJMembers fuel r' with
        | some (kvs, rest) => some (.jobj kvs, rest)
        | none => none
    | '[' :: r =>
      match skipJsonWs r with
      | ']' :: r2 => some (.jarr [], r2)
      | r' =>
        match parseJElems fuel r' with
        | some (xs, rest) => some (.jarr xs, rest)
        | none => none
    | s' => parseJNumber s'

/-- Parse the members of a JSON object (cursor at the first key, leading
whitespace already skipped). -/
def parseJMembers : Nat → Str → Option (List (Str × JsonValue) × Str)
  | 0, _ => none
  | fuel + 1, s =>
    match s with
    | '"' :: r =>
      match parseJString (r.length + 1) r with
      | none => none
      | some (k, r1) =>
        match skipJsonWs r1 with
        | ':' :: r2 =>
          match parseJValue fuel r2 with
          | none => none
          | some (v, r3) =>
            match skipJsonWs r3 with
            | ',' :: r4 =>
              match parseJMembers fuel (skipJsonWs r4) with
              | some (kvs, rest) => some ((k, v) :: kvs, rest)
              | none => none
            | '\x7d' :: r4 => some ([(k, v)], r4)
            | _ => none
        | _ => none
    | _ => none

/-- Parse the elements of a JSON array (cursor at the first element). -/
def parseJElems : Nat → Str → Option (List JsonValue × Str)
  | 0, _ => none
  | fuel + 1, s =>
    match parseJValue fuel s with
    | none => none
    | some (v, r) =>
      match skipJsonWs r with
      | ',' :: r2 =>
        match parseJElems fuel r2 with
        | some (xs, rest) => some (v :: xs, rest)
        | none => none
      | ']' :: r2 => some ([v], r2)
      | _ => none

end

/-- Python `json.loads`: parse a complete JSON document; anything but
whitespace after the value is an error ("Extra data"). -/
def json_loads (s : Str) : Option JsonValue :=
  match parseJValue (2 * s.length + 4) s with
  | some (v, rest) => if (skipJsonWs rest).isEmpty then some v else none
  | none => none

/-- Decimal digits of an integer, as Python `str(int)` renders it. -/
def intRepr (n : Int) : Str :=
  if n < 0 then '-' :: Nat.toDigits 10 n.natAbs else Nat.toDigits 10 n.natAbs

/-- Count how often `p` divides `n` (fuel-bounded). -/
def factorCountAux : Nat → Nat → Nat → Nat
  | 0, _, _ => 0
  | fuel + 1, p, n =>
    if 2 ≤ p ∧ 0 < n ∧ n % p = 0 then factorCountAux fuel p (n / p) + 1 else 0

/-- Multiplicity of `p` in `n`. -/
def factorCount (p n : Nat) : Nat := factorCountAux n p n

/-- Python `str(float)` for the exact decimal values that arise from parsing
decimal literals, rendered in positional notation (`3.0`, `1.75`, `0.05`).
CPython's switch to scientific notation for very large/small magnitudes and
its shortest-round-trip rounding are not modelled; no claim evaluates a
float's text at such values. -/
def floatRepr (q : Rat) : Str :=
  let a := factorCount 2 q.den
  let b := factorCount 5 q.den
  if q.den = 2 ^ a * 5 ^ b then
    let k := max a b
    if k = 0 then intRepr q.num ++ ('.' :: ['0'])
    else
      let scaled : Nat := q.num.natAbs * (10 ^ k / q.den)
      let ds := Nat.toDigits 10 scaled
      let ds := List.replicate (k + 1 - ds.length) '0' ++ ds
      let sign : Str := if q.num < 0 then ['-'] else []
      sign ++ ds.take (ds.length - k) ++ ('.' :: ds.drop (ds.length - k))
  else intRepr q.num ++ ('/' :: Nat.toDigits 10 q.den)

/-- Escape one character for Python `repr` of text, given the chosen quote. -/
def pyReprEsc (quote : Char) (c : Char) : Str :=
  if c = '\\' then ['\\', '\\']
  else if c = quote then ['\\', quote]
  else if c = '\n' then ['\\', 'n']
  else if c = '\r' then ['\\', 'r']
  else if c = '\t' then ['\\', 't']
  else if c.toNat < 0x20 ∨ c.toNat = 0x7f then
    '\\' :: 'x' :: (Nat.toDigits 16 c.toNat)
  else [c]

/-- Python `repr` of a text value: single-quoted unless the text contains a
single quote and no double quote. -/
def pyReprStr (s : Str) : Str :=
  let q : Char := if s.contains '\'' && !(s.contains '"') then '"' else '\''
  q :: (s.map (pyReprEsc q)).flatten ++ [q]

mutual

/-- Python `str(value)` (`asRepr = false`) and `repr(value)` (`asRepr =
true`) on a JSON value; they differ only on text, and container elements are
always rendered with `repr`, as CPython does.  (A `jobj` produced by
`json_loads` may carry a duplicated key that a real `dict` would have
collapsed; `str` is never applied to such a value in any theorem below.) -/
def pyStrCore : Bool → JsonValue → Str
  | _, .jnull => ('N' :: "one".data)
  | _, .jbool true => ('T' :: "rue".data)
  | _, .jbool false => ('F' :: "alse".data)
  | _, .jint n => intRepr n
  | _, .jfloat q => floatRepr q
  | asRepr, .jstr s => if asRepr then pyReprStr s else s
  | _, .jarr xs => '[' :: (List.intercalate (',' :: [' ']) (pyStrList xs)) ++ [']']
  | _, .jobj kvs => '\x7b' :: (List.intercalate (',' :: [' ']) (pyStrObj kvs)) ++ ['\x7d']

/-- `repr` of each element of a list value. -/
def pyStrList : List JsonValue → List Str
  | [] => []
  | v :: vs => pyStrCore true v :: pyStrList vs

/-- `repr(key): repr(value)` for each member of an object value. -/
def pyStrObj : List (Str × JsonValue) → List Str
  | [] => []
  | (k, v) :: kvs => (pyReprStr k ++ (':' :: ' ' :: pyStrCore true v)) :: pyStrObj kvs

end

/-- Python `str(value)`. -/
def pyStr (v : JsonValue) : Str := pyStrCore false v

/-- Exponent tail of a Python float literal: sign, at least one digit,
nothing after. -/
def pyFloatFinishExp (m : Int) (fracLen : Nat) (r : Str) : Option Rat :=
  let (expNeg, r1) : Bool × Str :=
    match r with
    | '+' :: r2 => (false, r2)
    | '-' :: r2 => (true, r2)
    | _ => (false, r)
  let (ds, r2) := takeDigits r1
  if ds.isEmpty then none
  else if r2.isEmpty then
    let e : Int := Int.ofNat (digitsToNat ds)
    some (ratOfParts m fracLen (if expNeg then -e else e))
  else none

/-- Python `float(str)`: strip whitespace, optional sign, then
`digits [. digits]` or `. digits` or `digits .`, with an optional
well-formed exponent; anything else raises `ValueError` (`none` here).
`inf`/`nan` spellings and digit-group underscores are not modelled: where
the source uses `float` (diameter parsing) those inputs end in `None`
either way. -/
def pyFloatOfString (s : Str) : Option Rat :=
  let t := pyStrip s
  let (neg, s1) : Bool × Str :=
    match t with
    | '-' :: r => (true, r)
    | '+' :: r => (false, r)
    | _ => (false, t)
  let (d1, s2) := takeDigits s1
  let (dotSeen, d2, s3) : Bool × Str × Str :=
    match s2 with
    | '.' :: r =>
      match takeDigits r with
      | (ds, r2) => (true, ds, r2)
    | _ => (false, [], s2)
  if d1.isEmpty ∧ d2.isEmpty then none
  else
    let m : Int := Int.ofNat (digitsToNat (d1 ++ d2))
    let m : Int := if neg then -m else m
    match s3 with
    | [] => some (ratOfParts m d2.length 0)
    | 'e' :: r => pyFloatFinishExp m d2.length r
    | 'E' :: r => pyFloatFinishExp m d2.length r
    | _ => if dotSeen then none else none


/-- The tagged markdown fence marker checked first by
`_parse_json_response`. -/
def fenceJsonTag : Str := "```json".data

/-- The bare markdown fence marker. -/
def fenceBare : Str := "```".data

/-- `ImageRecognizer._parse_json_response` (recognizer.py lines 71–99):
strip, remove a leading ```` ```json ```` or ```` ``` ```` marker and a
trailing ```` ``` ```` marker, re-strip, try `json.loads`; on failure try
`json.loads` on the inclusive span from the first `{` to the last `}`
when the `}` comes later; otherwise `None`. -/
def parse_json_response (text0 : Str) : Option JsonValue :=
  let text1 := pyStrip text0
  let text2 :=
    if pyStartsWith text1 fenceJsonTag then text1.drop 7
    else if pyStartsWith text1 fenceBare then text1.drop 3
    else text1
  let text3 := if pyEndsWith text2 fenceBare then text2.take (text2.length - 3) else text2
  let text := pyStrip text3
  match json_loads text with
  | some v => some v
  | none =>
    match pyFind text '\x7b', pyRfind text '\x7d' with
    | some i, some j => if i < j then json_loads (sliceIncl text i j) else none
    | _, _ => none

/-- `RecognizedFilamentData` (models.py lines 8–17): all fields optional,
defaulting to null.  `temperatureInfo` is never set by the recognizer. -/
structure RecognizedFilamentData where
  brand : Option Str
  material : Option Str
  colorName : Option Str
  colorHex : Option Str
  weight : Option Str
  diameter : Option Rat
  temperatureInfo : Option Str
deriving DecidableEq, Repr

/-- `RecognitionResponse` (models.py lines 19–24). -/
structure RecognitionResponse where
  success : Bool
  data : Option RecognizedFilamentData
  confidence : Option Rat
  error : Option Str
deriving DecidableEq, Repr

/-- Last binding of a key in an object, as CPython's `dict` built by
`json.loads` resolves a duplicated key. -/
def lookupLast : Jobj → Str → Option JsonValue
  | [], _ => none
  | (k', v) :: rest, k =>
    match lookupLast rest k with
    | some w => some w
    | none => if k' = k then some v else none

/-- Python `data.get(key)` on a dict of JSON values.  A JSON `null` value is
returned as Python `None`, indistinguishable from an absent key, which is
how every use in `_validate_and_normalize` observes it. -/
def pyGet (data : Jobj) (k : Str) : Option JsonValue :=
  match lookupLast data k with
  | some .jnull => none
  | some v => some v
  | none => none

def brandKey : Str := "brand".data
def materialKey : Str := "material".data
def colorNameKey : Str := "colorName".data
def colorHexKey : Str := "colorHex".data
def weightKey : Str := "weight".data
def diameterKey : Str := "diameter".data
def temperatureInfoKey : Str := "temperatureInfo".data

/-- The value of the literal `1.75` from `[1.75, 2.85]` (recognizer.py line
111), written `175/100` so that closed terms reduce. -/
def d175 : Rat := mkRat 175 100

/-- The value of the literal `2.85` from `[1.75, 2.85]` (recognizer.py line
111). -/
def d285 : Rat := mkRat 285 100

/-- Diameter normalization (recognizer.py lines 103–112): a text value is
parsed with `float` (a failed parse becomes `None`); then any value that is
not in `[1.75, 2.85]` becomes `None`.  Python's `in` compares by equality:
a bool equals its numeric value (`True == 1`), and a list/dict value equals
neither float, so both end in `None`; here both routes are fused into the
`parsed`/membership steps with the same observable result.  This is the
value `diameter` holds just before the membership test. -/
def diameterParsed : JsonValue → Option Rat
  | .jstr s => pyFloatOfString s
  | .jint n => some ((n : Int) : Rat)
  | .jfloat q => some q
  | .jbool true => some 1
  | .jbool false => some 0
  | _ => none

/-- The membership test and null collapse of diameter normalization (see
`normDiameter`). -/
def normDiameter (v : Option JsonValue) : Option Rat :=
  match v with
  | none => none
  | some d0 =>
    match diameterParsed d0 with
    | none => none
    | some q => if q = d175 ∨ q = d285 then some q else none

/-- Weight normalization (recognizer.py lines 114–117): a present value that
is not text is replaced by `str(value)`; text passes through; absent stays
null. -/
def normWeight : Option JsonValue → Option Str
  | none => none
  | some (.jstr s) => some s
  | some v => some (pyStr v)

/-- Error for a non-text, non-null `colorHex`: a truthy non-text value
raises `AttributeError` at `.startswith` (recognizer.py line 121); a falsy
non-text value (`False`, `0`) reaches the pydantic constructor and is
rejected there.  Both are raises; the code never distinguishes them. -/
def colorHexErr : Str := "colorHex: non-text value".data

/-- colorHex normalization (recognizer.py lines 119–122): `#` is prepended
when the value is truthy (non-empty) text that does not already start with
`#`; otherwise the value is unchanged. -/
def normColorHex : Option JsonValue → Except Str (Option Str)
  | none => .ok none
  | some (.jstr s) =>
    .ok (some (if s ≠ [] ∧ pyStartsWith s ['#'] = false then '#' :: s else s))
  | some _ => .error colorHexErr

/-- Error raised by the pydantic model for a non-text, non-null value in an
`Optional[str]` field (modelled after pydantic v2; see the header note). -/
def strFieldErr : Str := "ValidationError: input should be a valid text value".data

/-- Pass-through of a free-text field (`brand`, `material`, `colorName`) into
the pydantic model: text and null are taken as they are; anything else is
rejected by validation. -/
def validateStrField : Option JsonValue → Except Str (Option Str)
  | none => .ok none
  | some (.jstr s) => .ok (some s)
  | some _ => .error strFieldErr

/-- `ImageRecognizer._validate_and_normalize` (recognizer.py lines
101–131): normalize diameter, weight and colorHex, then construct
`RecognizedFilamentData` with brand/material/colorName passed through. -/
def validate_and_normalize (data : Jobj) : Except Str RecognizedFilamentData :=
  let diameter := normDiameter (pyGet data diameterKey)
  let weight := normWeight (pyGet data weightKey)
  match normColorHex (pyGet data colorHexKey) with
  | .error e => .error e
  | .ok colorHex =>
    match validateStrField (pyGet data brandKey) with
    | .error e => .error e
    | .ok brand =>
      match validateStrField (pyGet data materialKey) with
      | .error e => .error e
      | .ok material =>
        match validateStrField (pyGet data colorNameKey) with
        | .error e => .error e
        | .ok colorName =>
          .ok ⟨brand, material, colorName, colorHex, weight, diameter, none⟩

/-- Python truthiness of a JSON value (`if not parsed_data`). -/
def pyTruthy : JsonValue → Bool
  | .jnull => false
  | .jbool b => b
  | .jint n => if n = 0 then false else true
  | .jfloat q => if q = 0 then false else true
  | .jstr s => !s.isEmpty
  | .jarr xs => !xs.isEmpty
  | .jobj kvs => !kvs.isEmpty

/-- Python truthiness of an optional text field of the record. -/
def pyTruthyOptStr : Option Str → Bool
  | none => false
  | some s => !s.isEmpty

/-- Python truthiness of the optional diameter field. -/
def pyTruthyOptRat : Option Rat → Bool
  | none => false
  | some q => if q = 0 then false else true

/-- `1 if b else 0`. -/
def b2i (b : Bool) : Nat := if b then 1 else 0

/-- The `filled_fields` sum (recognizer.py lines 212–219): one per truthy
field among brand, material, colorName, colorHex, weight, diameter. -/
def filledFields (r : RecognizedFilamentData) : Nat :=
  b2i (pyTruthyOptStr r.brand) + b2i (pyTruthyOptStr r.material) +
    b2i (pyTruthyOptStr r.colorName) + b2i (pyTruthyOptStr r.colorHex) +
    b2i (pyTruthyOptStr r.weight) + b2i (pyTruthyOptRat r.diameter)

/-- `confidence = filled_fields / 6.0` (recognizer.py line 220); Python's
float division is exact at every value this quotient takes. -/
def confidenceOf (r : RecognizedFilamentData) : Rat :=
  mkRat (filledFields r : Int) 6

/-- The error seen by the caller when `recognize` raises
`Exception("Failed to parse JSON from model response")` and its outer
handler re-raises it as `Exception(f"Recognition failed: ...")`
(recognizer.py lines 205–206 and 224–225). -/
def parseFailMsg : Str :=
  "Recognition failed: Failed to parse JSON from model response".data

/-- The `recognize` outer handler's wrapping of any raised error. -/
def recognitionFailed (e : Str) : Str := "Recognition failed: ".data ++ e

/-- The `AttributeError` text raised by `parsed_data.get(...)` when the
parsed value is truthy but not a dict. -/
def attrGetErr : Str := "AttributeError: object has no attribute get".data

/-- The interpretation phase of `ImageRecognizer.recognize` (recognizer.py
lines 202–225), starting from the model's output text: parse JSON, treat a
missing or falsy result (`if not parsed_data`) as a parse failure, then
normalize and compute the confidence; any raise is re-raised wrapped in
`"Recognition failed: ..."`. -/
def recognizeText (output_text : Str) : Except Str (RecognizedFilamentData × Rat) :=
  match parse_json_response output_text with
  | none => .error parseFailMsg
  | some v =>
    if pyTruthy v = false then .error parseFailMsg
    else
      match v with
      | .jobj kvs =>
        match validate_and_normalize kvs with
        | .ok r => .ok (r, confidenceOf r)
        | .error e => .error (recognitionFailed e)
      | _ => .error (recognitionFailed attrGetErr)

/-- The `recognize_filament` endpoint's result shaping (app.py lines
143–171): a successful core call becomes `success=True` with data and
confidence; a raised core error becomes `success=False` with only the error
text. -/
def recognize_filament (outcome : Except Str (RecognizedFilamentData × Rat)) :
    RecognitionResponse :=
  match outcome with
  | .ok (d, c) => { success := true, data := some d, confidence := some c, error := none }
  | .error e => { success := false, data := none, confidence := none, error := some e }

/-- The body returned by the global exception handler (app.py lines
174–184) for truly unexpected faults. -/
def internalErrorResponse : RecognitionResponse :=
  { success := false, data := none, confidence := none,
    error := some ("Internal server error".data) }

/-- One key/value entry when the value is present, nothing when null (for a
`dict` view of a record; `data.get` cannot tell the two apart). -/
def optEntry (k : Str) : Option JsonValue → Jobj
  | none => []
  | some v => [(k, v)]

/-- The mapping of field values carried by a normalized record, used to
state idempotence of normalization. -/
def recordToObj (r : RecognizedFilamentData) : Jobj :=
  optEntry brandKey (r.brand.map .jstr) ++
    optEntry materialKey (r.material.map .jstr) ++
    optEntry colorNameKey (r.colorName.map .jstr) ++
    optEntry colorHexKey (r.colorHex.map .jstr) ++
    optEntry weightKey (r.weight.map .jstr) ++
    optEntry diameterKey (r.diameter.map .jfloat) ++
    optEntry temperatureInfoKey (r.temperatureInfo.map .jstr)

/-- A field value that is absent/null or text. -/
def isTextOrNull : Option JsonValue → Bool
  | none => true
  | some (.jstr _) => true
  | some _ => false

/-- A field value that is absent/null or a JSON scalar (text, number,
bool). -/
def isScalarOrNull : Option JsonValue → Bool
  | none => true
  | some (.jstr _) => true
  | some (.jint _) => true
  | some (.jfloat _) => true
  | some (.jbool _) => true
  | some _ => false

/-- A field value that is absent/null, text, or numeric. -/
def isNumTextOrNull : Option JsonValue → Bool
  | none => true
  | some (.jstr _) => true
  | some (.jint _) => true
  | some (.jfloat _) => true
  | some _ => false

/-- Is the value a JSON text value? -/
def isJStr : JsonValue → Bool
  | .jstr _ => true
  | _ => false

/-- Spec-side population count: the number of fields among brand, material,
colorName, colorHex, weight, diameter that are populated in the Python
truthiness sense — non-null and, for the five text fields, non-empty.  Used
to characterise `confidenceOf` against the spec's wording. -/
def countPopulated (r : RecognizedFilamentData) : Nat :=
  (if r.brand ≠ none ∧ r.brand ≠ some [] then 1 else 0) +
    (if r.material ≠ none ∧ r.material ≠ some [] then 1 else 0) +
    (if r.colorName ≠ none ∧ r.colorName ≠ some [] then 1 else 0) +
    (if r.colorHex ≠ none ∧ r.colorHex ≠ some [] then 1 else 0) +
    (if r.weight ≠ none ∧ r.weight ≠ some [] then 1 else 0) +
    (if r.diameter ≠ none then 1 else 0)

/-! ### Helper lemmas -/

theorem lookupLast_append (a b : Jobj) (k : Str) :
    lookupLast (a ++ b) k =
      match lookupLast b k with
      | some w => some w
      | none => lookupLast a k := by
  induction a with
  | nil =>
    simp only [List.nil_append, lookupLast]
    cases lookupLast b k <;> rfl
  | cons hd tl ih =>
    obtain ⟨k', v⟩ := hd
    simp only [List.cons_append, lookupLast, List.append_eq, ih]
    cases lookupLast b k <;> cases lookupLast tl k <;> rfl

theorem lookupLast_append_left_none (a b : Jobj) (k : Str)
    (h : lookupLast a k = none) : lookupLast (a ++ b) k = lookupLast b k := by
  rw [lookupLast_append]
  cases lookupLast b k <;> simp [h]

theorem lookupLast_append_right_none (a b : Jobj) (k : Str)
    (h : lookupLast b k = none) : lookupLast (a ++ b) k = lookupLast a k := by
  rw [lookupLast_append, h]

theorem lookupLast_optEntry_ne (k' k : Str) (o : Option JsonValue)
    (h : k' ≠ k) : lookupLast (optEntry k' o) k = none := by
  cases o <;> simp [optEntry, lookupLast, h]

theorem lookupLast_optEntry_self (k : Str) (o : Option JsonValue) :
    lookupLast (optEntry k o) k = o := by
  cases o <;> simp [optEntry, lookupLast]

theorem lookupLast_append_none (a b : Jobj) (k : Str)
    (ha : lookupLast a k = none) (hb : lookupLast b k = none) :
    lookupLast (a ++ b) k = none := by
  rw [lookupLast_append, hb]; exact ha

theorem pyGet_recordToObj_brand (r : RecognizedFilamentData) :
    pyGet (recordToObj r) brandKey = r.brand.map .jstr := by
  simp only [recordToObj, pyGet, lookupLast_append, lookupLast_optEntry_self]
  rw [lookupLast_optEntry_ne materialKey brandKey _ (by decide)]
  rw [lookupLast_optEntry_ne colorNameKey brandKey _ (by decide)]
  rw [lookupLast_optEntry_ne colorHexKey brandKey _ (by decide)]
  rw [lookupLast_optEntry_ne weightKey brandKey _ (by decide)]
  rw [lookupLast_optEntry_ne diameterKey brandKey _ (by decide)]
  rw [lookupLast_optEntry_ne temperatureInfoKey brandKey _ (by decide)]
  cases r.brand <;> rfl

theorem pyGet_recordToObj_material (r : RecognizedFilamentData) :
    pyGet (recordToObj r) materialKey = r.material.map .jstr := by
  simp only [recordToObj, pyGet, lookupLast_append, lookupLast_optEntry_self]
  rw [lookupLast_optEntry_ne brandKey materialKey _ (by decide)]
  rw [lookupLast_optEntry_ne colorNameKey materialKey _ (by decide)]
  rw [lookupLast_optEntry_ne colorHexKey materialKey _ (by decide)]
  rw [lookupLast_optEntry_ne weightKey materialKey _ (by decide)]
  rw [lookupLast_optEntry_ne diameterKey materialKey _ (by decide)]
  rw [lookupLast_optEntry_ne temperatureInfoKey materialKey _ (by decide)]
  cases r.material <;> rfl

theorem pyGet_recordToObj_colorName (r : RecognizedFilamentData) :
    pyGet (recordToObj r) colorNameKey = r.colorName.map .jstr := by
  simp only [recordToObj, pyGet, lookupLast_append, lookupLast_optEntry_self]
  rw [lookupLast_optEntry_ne brandKey colorNameKey _ (by decide)]
  rw [lookupLast_optEntry_ne materialKey colorNameKey _ (by decide)]
  rw [lookupLast_optEntry_ne colorHexKey colorNameKey _ (by decide)]
  rw [lookupLast_optEntry_ne weightKey colorNameKey _ (by decide)]
  rw [lookupLast_optEntry_ne diameterKey colorNameKey _ (by decide)]
  rw [lookupLast_optEntry_ne temperatureInfoKey colorNameKey _ (by decide)]
  cases r.colorName <;> rfl

theorem pyGet_recordToObj_colorHex (r : RecognizedFilamentData) :
    pyGet (recordToObj r) colorHexKey = r.colorHex.map .jstr := by
  simp only [recordToObj, pyGet, lookupLast_append, lookupLast_optEntry_self]
  rw [lookupLast_optEntry_ne brandKey colorHexKey _ (by decide)]
  rw [lookupLast_optEntry_ne materialKey colorHexKey _ (by decide)]
  rw [lookupLast_optEntry_ne colorNameKey colorHexKey _ (by decide)]
  rw [lookupLast_optEntry_ne weightKey colorHexKey _ (by decide)]
  rw [lookupLast_optEntry_ne diameterKey colorHexKey _ (by decide)]
  rw [lookupLast_optEntry_ne temperatureInfoKey colorHexKey _ (by decide)]
  cases r.colorHex <;> rfl

theorem pyGet_recordToObj_weight (r : RecognizedFilamentData) :
    pyGet (recordToObj r) weightKey = r.weight.map .jstr := by
  simp only [recordToObj, pyGet, lookupLast_append, lookupLast_optEntry_self]
  rw [lookupLast_optEntry_ne brandKey weightKey _ (by decide)]
  rw [lookupLast_optEntry_ne materialKey weightKey _ (by decide)]
  rw [lookupLast_optEntry_ne colorNameKey weightKey _ (by decide)]
  rw [lookupLast_optEntry_ne colorHexKey weightKey _ (by decide)]
  rw [lookupLast_optEntry_ne diameterKey weightKey _ (by decide)]
  rw [lookupLast_optEntry_ne temperatureInfoKey weightKey _ (by decide)]
  cases r.weight <;> rfl

theorem pyGet_recordToObj_diameter (r : RecognizedFilamentData) :
    pyGet (recordToObj r) diameterKey = r.diameter.map .jfloat := by
  simp only [recordToObj, pyGet, lookupLast_append, lookupLast_optEntry_self]
  rw [lookupLast_optEntry_ne brandKey diameterKey _ (by decide)]
  rw [lookupLast_optEntry_ne materialKey diameterKey _ (by decide)]
  rw [lookupLast_optEntry_ne colorNameKey diameterKey _ (by decide)]
  rw [lookupLast_optEntry_ne colorHexKey diameterKey _ (by decide)]
  rw [lookupLast_optEntry_ne weightKey diameterKey _ (by decide)]
  rw [lookupLast_optEntry_ne temperatureInfoKey diameterKey _ (by decide)]
  cases r.diameter <;> rfl

theorem validateStrField_map_jstr (o : Option Str) :
    validateStrField (o.map .jstr) = .ok o := by
  cases o <;> rfl

theorem normWeight_map_jstr (o : Option Str) :
    normWeight (o.map .jstr) = o := by
  cases o <;> rfl

theorem normColorHex_out_shape (x : Option JsonValue) (s : Str)
    (h : normColorHex x = .ok (some s)) :
    s = [] ∨ pyStartsWith s ['#'] = true := by
  match x with
  | none => simp [normColorHex] at h
  | some (.jstr t) =>
    simp only [normColorHex, Except.ok.injEq, Option.some.injEq] at h
    by_cases hc : t ≠ [] ∧ pyStartsWith t ['#'] = false
    · rw [if_pos hc] at h
      right
      rw [← h]
      simp [pyStartsWith, listStarts]
    · rw [if_neg hc] at h
      subst h
      rcases not_and_or.mp hc with h1 | h2
      · exact .inl (not_not.mp h1)
      · exact .inr (Bool.ne_false_iff.mp h2)
  | some .jnull => simp [normColorHex] at h
  | some (.jbool b) => simp [normColorHex] at h
  | some (.jint n) => simp [normColorHex] at h
  | some (.jfloat q) => simp [normColorHex] at h
  | some (.jarr xs) => simp [normColorHex] at h
  | some (.jobj kvs) => simp [normColorHex] at h

theorem normColorHex_of_shape (s : Str)
    (h : s = [] ∨ pyStartsWith s ['#'] = true) :
    normColorHex (some (.jstr s)) = .ok (some s) := by
  have hc : ¬(s ≠ [] ∧ pyStartsWith s ['#'] = false) := by
    rcases h with h | h
    · exact fun hh => hh.1 h
    · exact fun hh => by rw [h] at hh; exact Bool.noConfusion hh.2
  simp only [normColorHex, if_neg hc]

theorem normColorHex_map_jstr (x : Option JsonValue) (o : Option Str)
    (h : normColorHex x = .ok o) :
    normColorHex (o.map .jstr) = .ok o := by
  cases o with
  | none => rfl
  | some s => exact normColorHex_of_shape s (normColorHex_out_shape x s h)

theorem normDiameter_mem (x : Option JsonValue) (q : Rat)
    (h : normDiameter x = some q) : q = d175 ∨ q = d285 := by
  cases x with
  | none => simp [normDiameter] at h
  | some d0 =>
    simp only [normDiameter] at h
    cases hp : diameterParsed d0 with
    | none => simp [hp] at h
    | some q' =>
      simp only [hp] at h
      by_cases hq : q' = d175 ∨ q' = d285
      · rw [if_pos hq] at h
        injection h with h'
        exact h' ▸ hq
      · rw [if_neg hq] at h; simp at h

theorem normDiameter_of_mem (q : Rat) (h : q = d175 ∨ q = d285) :
    normDiameter (some (.jfloat q)) = some q := by
  simp only [normDiameter, diameterParsed, if_pos h]

theorem normDiameter_map_jfloat (x : Option JsonValue) (o : Option Rat)
    (h : normDiameter x = o) :
    normDiameter (o.map .jfloat) = o := by
  cases o with
  | none => rfl
  | some q => exact normDiameter_of_mem q (normDiameter_mem x q h)

/-- Inversion of a successful `validate_and_normalize`: each field of the
returned record is the corresponding field normalization's result. -/
theorem validate_ok_inv (data : Jobj) (r : RecognizedFilamentData)
    (h : validate_and_normalize data = .ok r) :
    r.diameter = normDiameter (pyGet data diameterKey) ∧
    r.weight = normWeight (pyGet data weightKey) ∧
    normColorHex (pyGet data colorHexKey) = .ok r.colorHex ∧
    validateStrField (pyGet data brandKey) = .ok r.brand ∧
    validateStrField (pyGet data materialKey) = .ok r.material ∧
    validateStrField (pyGet data colorNameKey) = .ok r.colorName ∧
    r.temperatureInfo = none := by
  simp only [validate_and_normalize] at h
  cases hch : normColorHex (pyGet data colorHexKey) with
  | error e => rw [hch] at h; simp at h
  | ok colorHex =>
    rw [hch] at h
    cases hb : validateStrField (pyGet data brandKey) with
    | error e => rw [hb] at h; simp at h
    | ok brand =>
      rw [hb] at h
      cases hm : validateStrField (pyGet data materialKey) with
      | error e => rw [hm] at h; simp at h
      | ok material =>
        rw [hm] at h
        cases hcn : validateStrField (pyGet data colorNameKey) with
        | error e => rw [hcn] at h; simp at h
        | ok colorName =>
          rw [hcn] at h
          simp only [Except.ok.injEq] at h
          subst h
          exact ⟨rfl, rfl, rfl, rfl, rfl, rfl, rfl⟩

theorem b2i_truthyStr_eq (o : Option Str) :
    b2i (pyTruthyOptStr o) = if o ≠ none ∧ o ≠ some [] then 1 else 0 := by
  cases o with
  | none => rfl
  | some s =>
    cases s with
    | nil => rfl
    | cons c cs =>
      have hcond : (some (c :: cs) ≠ none ∧ some (c :: cs) ≠ some ([] : Str)) :=
        ⟨by simp, by simp⟩
      rw [if_pos hcond]; rfl

theorem b2i_truthyRat_of_mem (o : Option Rat)
    (h : o = none ∨ o = some d175 ∨ o = some d285) :
    b2i (pyTruthyOptRat o) = if o ≠ none then 1 else 0 := by
  rcases h with h | h | h <;> subst h <;> decide

theorem validateStrField_ok_of (x : Option JsonValue)
    (h : isTextOrNull x = true) : ∃ o, validateStrField x = .ok o := by
  match x with
  | none => exact ⟨none, rfl⟩
  | some (.jstr s) => exact ⟨some s, rfl⟩
  | some .jnull => simp [isTextOrNull] at h
  | some (.jbool b) => simp [isTextOrNull] at h
  | some (.jint n) => simp [isTextOrNull] at h
  | some (.jfloat q) => simp [isTextOrNull] at h
  | some (.jarr xs) => simp [isTextOrNull] at h
  | some (.jobj kvs) => simp [isTextOrNull] at h

theorem normColorHex_ok_of (x : Option JsonValue)
    (h : isTextOrNull x = true) : ∃ o, normColorHex x = .ok o := by
  match x with
  | none => exact ⟨none, rfl⟩
  | some (.jstr s) => exact ⟨_, rfl⟩
  | some .jnull => simp [isTextOrNull] at h
  | some (.jbool b) => simp [isTextOrNull] at h
  | some (.jint n) => simp [isTextOrNull] at h
  | some (.jfloat q) => simp [isTextOrNull] at h
  | some (.jarr xs) => simp [isTextOrNull] at h
  | some (.jobj kvs) => simp [isTextOrNull] at h

theorem intCast_ne_d175 (n : Int) : ((n : Int) : Rat) ≠ d175 := by
  intro hh
  have hden := congrArg Rat.den hh
  rw [Rat.den_intCast] at hden
  exact absurd hden (by decide)

theorem intCast_ne_d285 (n : Int) : ((n : Int) : Rat) ≠ d285 := by
  intro hh
  have hden := congrArg Rat.den hh
  rw [Rat.den_intCast] at hden
  exact absurd hden (by decide)

/-! ### Claim theorems -/

/-- C1 counterexample: the claim asserts that the two interpretation-failure
cases yield distinguishable error messages; on the code both the
no-delimiters input `"no data here"` and the found-delimiters-but-malformed
input `"{bad}"` propagate the identical error
`"Recognition failed: Failed to parse JSON from model response"`. -/
theorem c1_counterexample :
    recognizeText ("no data here".data) = .error parseFailMsg ∧
    recognizeText ("\x7bbad\x7d".data) = .error parseFailMsg ∧
    pyFind (pyStrip ("no data here".data)) '\x7b' = none ∧
    pyFind (pyStrip ("\x7bbad\x7d".data)) '\x7b' = some 0 ∧
    pyRfind (pyStrip ("\x7bbad\x7d".data)) '\x7d' = some 4 :=
  ⟨rfl, rfl, rfl, rfl, rfl⟩

/-- C1 (amended): whenever interpretation recovers no parseable JSON (both
parse attempts fail, so `_parse_json_response` returns `None`), the error
propagated to the caller is the single fixed message
`"Recognition failed: Failed to parse JSON from model response"`, the same
in the no-JSON-delimiters case and in the malformed-outer-structure case:
the two failure cases are not distinguishable. -/
theorem c1_single_interpretation_error_message (t : Str)
    (h : parse_json_response t = none) :
    recognizeText t = .error parseFailMsg := by
  simp [recognizeText, h]

/-- C1 witness: the amended theorem applied at the concrete failing text. -/
theorem c1_single_interpretation_error_message_witness :
    recognizeText ("no data here".data) = .error parseFailMsg :=
  c1_single_interpretation_error_message (("no data here".data)) rfl

/-- C2 counterexample: for the model text `{"brand": ""}` the normalized
record has exactly one non-null field (brand = `""`), so the claim predicts
confidence `1/6`; the code computes confidence `0`, because `filled_fields`
counts Python-truthy fields and the empty text is falsy. -/
theorem c2_counterexample :
    recognizeText ("\x7b\"brand\": \"\"\x7d".data) =
      .ok (⟨some [], none, none, none, none, none, none⟩, 0) ∧
    (some ([] : Str) ≠ none) ∧
    ((0 : Rat) ≠ mkRat 1 6) :=
  ⟨rfl, by decide, by decide⟩

/-- C2 (amended): for every normalized record the confidence equals the
number of populated fields divided by six, where "populated" means truthy in
Python's sense — non-null and, for the five text fields, non-empty (for the
diameter field, which normalization confines to 1.75/2.85/null, truthy and
non-null coincide).  A record whose six fields hold non-empty values yields
1.0, an all-null record yields 0.0, and three non-empty populated fields
yield 0.5. -/
theorem c2_confidence_counts_truthy_fields :
    (∀ data r, validate_and_normalize data = .ok r →
      confidenceOf r = (countPopulated r : Rat) / 6) ∧
    confidenceOf ⟨some ("Sunlu".data), some ("PLA".data), some ("Black".data),
      some ("#333333".data), some ("1000".data), some d175, none⟩ = 1 ∧
    confidenceOf ⟨none, none, none, none, none, none, none⟩ = 0 ∧
    confidenceOf ⟨some ("Sunlu".data), some ("PLA".data), some ("Black".data),
      none, none, none, none⟩ = 1 / 2 := by
  refine ⟨?_, by decide, by decide, ?_⟩
  · intro data r h
    obtain ⟨hd, hw, hch, hb, hm, hcn, ht⟩ := validate_ok_inv data r h
    have hdmem : r.diameter = none ∨ r.diameter = some d175 ∨ r.diameter = some d285 := by
      cases hdm : r.diameter with
      | none => exact .inl rfl
      | some q =>
        rw [hdm] at hd
        rcases normDiameter_mem _ q hd.symm with h1 | h1 <;> rw [h1]
        · exact .inr (.inl rfl)
        · exact .inr (.inr rfl)
    have hff : filledFields r = countPopulated r := by
      unfold filledFields countPopulated
      rw [b2i_truthyStr_eq r.brand, b2i_truthyStr_eq r.material,
        b2i_truthyStr_eq r.colorName, b2i_truthyStr_eq r.colorHex,
        b2i_truthyStr_eq r.weight, b2i_truthyRat_of_mem r.diameter hdmem]
    rw [confidenceOf, hff, Rat.mkRat_eq_div]
    push_cast
    ring
  · have h3 : confidenceOf ⟨some ("Sunlu".data), some ("PLA".data),
        some ("Black".data), none, none, none, none⟩ = mkRat 3 6 := rfl
    rw [h3, Rat.mkRat_eq_div]
    norm_num

/-- C2 witness: the amended theorem applied at a concrete parsed mapping. -/
theorem c2_confidence_counts_truthy_fields_witness :
    confidenceOf ⟨some ['X'], none, none, none, none, none, none⟩ =
      (countPopulated ⟨some ['X'], none, none, none, none, none, none⟩ : Rat) / 6 :=
  c2_confidence_counts_truthy_fields.1 [(brandKey, .jstr ['X'])] _ rfl

/-- C3: the JSON-extraction fallback of `_parse_json_response` on the spec's
three examples: a fenced JSON block parses, a JSON object embedded in prose
parses via the first-`{`-to-last-`}` fallback, and text with no JSON fails
interpretation (the caller sees the parse-failure error). -/
theorem c3_json_extraction_examples :
    parse_json_response ("```json\n\x7b\"brand\":\"Sunlu\"\x7d\n```".data) =
      some (.jobj [(brandKey, .jstr ("Sunlu".data))]) ∧
    parse_json_response ("Sure, here you go: \x7b\"material\":\"PLA\"\x7d thanks!".data) =
      some (.jobj [(materialKey, .jstr ("PLA".data))]) ∧
    parse_json_response ("no data here".data) = none ∧
    recognizeText ("no data here".data) = .error parseFailMsg :=
  ⟨rfl, rfl, rfl, rfl⟩

/-- C4 counterexample: for the raw model text `"{}"` the direct JSON parse
succeeds (returning the empty mapping), yet interpretation does not succeed:
`recognize` checks `if not parsed_data`, the empty dict is falsy, and the
caller receives the parse-failure error instead of an all-null record with
confidence 0.0. -/
theorem c4_counterexample :
    parse_json_response ("\x7b\x7d".data) = some (.jobj []) ∧
    recognizeText ("\x7b\x7d".data) = .error parseFailMsg ∧
    validate_and_normalize [] = .ok ⟨none, none, none, none, none, none, none⟩ ∧
    confidenceOf ⟨none, none, none, none, none, none, none⟩ = 0 :=
  ⟨rfl, rfl, rfl, by decide⟩

/-- C4 (amended): interpretation fails with the parse-failure error iff the
recovered parse result is missing or falsy: a parse result that is a truthy
(non-empty) mapping is used and recognition proceeds to normalization and
confidence; a successfully parsed but falsy value — such as the empty
mapping parsed from `"{}"` — is reported as the same interpretation failure,
not as an all-null record. -/
theorem c4_interpretation_requires_truthy_parse :
    (∀ t v, parse_json_response t = some v → pyTruthy v = false →
      recognizeText t = .error parseFailMsg) ∧
    (∀ t kvs r, parse_json_response t = some (.jobj kvs) → kvs ≠ [] →
      validate_and_normalize kvs = .ok r →
      recognizeText t = .ok (r, confidenceOf r)) ∧
    (∀ t kvs e, parse_json_response t = some (.jobj kvs) → kvs ≠ [] →
      validate_and_normalize kvs = .error e →
      recognizeText t = .error (recognitionFailed e)) ∧
    recognizeText ("\x7b\x7d".data) = .error parseFailMsg := by
  refine ⟨?_, ?_, ?_, rfl⟩
  · intro t v h hv
    simp [recognizeText, h, hv]
  · intro t kvs r h hne hv
    have ht : pyTruthy (.jobj kvs) = true := by
      cases kvs with
      | nil => exact absurd rfl hne
      | cons a l => rfl
    simp [recognizeText, h, ht, hv]
  · intro t kvs e h hne hv
    have ht : pyTruthy (.jobj kvs) = true := by
      cases kvs with
      | nil => exact absurd rfl hne
      | cons a l => rfl
    simp [recognizeText, h, ht, hv]

/-- C4 witness: the amended theorem's truthy-mapping case applied at a
concrete text. -/
theorem c4_interpretation_requires_truthy_parse_witness :
    recognizeText ("\x7b\"material\":\"PLA\"\x7d".data) =
      .ok (⟨none, some ("PLA".data), none, none, none, none, none⟩,
        confidenceOf ⟨none, some ("PLA".data), none, none, none, none, none⟩) :=
  c4_interpretation_requires_truthy_parse.2.1 _ [(materialKey, .jstr ("PLA".data))] _
    rfl (List.cons_ne_nil _ _) rfl

/-- C5: diameter normalization: a text value is numerically parsed and a
parse failure yields null; any parsed or already-numeric value that is not
exactly 1.75 or exactly 2.85 (this includes every JSON integer) is set to
null; `"1.75"` parses to 1.75, `"2.85"` to 2.85, `"3.0"` to null; the
already-numeric 1.75 is kept; a missing key stays null. -/
theorem c5_diameter_normalization :
    (∀ s, pyFloatOfString s = none → normDiameter (some (.jstr s)) = none) ∧
    (∀ s q, pyFloatOfString s = some q → q ≠ d175 → q ≠ d285 →
      normDiameter (some (.jstr s)) = none) ∧
    (∀ q, q ≠ d175 → q ≠ d285 → normDiameter (some (.jfloat q)) = none) ∧
    (∀ n : Int, normDiameter (some (.jint n)) = none) ∧
    normDiameter (some (.jstr ("1.75".data))) = some d175 ∧
    normDiameter (some (.jstr ("2.85".data))) = some d285 ∧
    normDiameter (some (.jstr ("3.0".data))) = none ∧
    normDiameter (some (.jfloat d175)) = some d175 ∧
    normDiameter none = none := by
  refine ⟨?_, ?_, ?_, ?_, rfl, rfl, rfl, rfl, rfl⟩
  · intro s h
    simp [normDiameter, diameterParsed, h]
  · intro s q h h1 h2
    simp [normDiameter, diameterParsed, h, h1, h2]
  · intro q h1 h2
    simp [normDiameter, diameterParsed, h1, h2]
  · intro n
    simp [normDiameter, diameterParsed, intCast_ne_d175 n, intCast_ne_d285 n]

/-- C5 witness: the universal clauses applied at concrete inputs — an
unparseable text, a text parsing to 3.5, an off-domain float, and a JSON
integer. -/
theorem c5_diameter_normalization_witness :
    normDiameter (some (.jstr ("abc".data))) = none ∧
    normDiameter (some (.jstr ("3.5".data))) = none ∧
    normDiameter (some (.jfloat (mkRat 3 1))) = none ∧
    normDiameter (some (.jint 2)) = none :=
  ⟨c5_diameter_normalization.1 (("abc".data)) rfl,
    c5_diameter_normalization.2.1 (("3.5".data)) (mkRat 7 2) rfl (by decide) (by decide),
    c5_diameter_normalization.2.2.1 (mkRat 3 1) (by decide) (by decide),
    c5_diameter_normalization.2.2.2.1 2⟩

/-- C6 counterexample: the claim asserts that any present text value not
beginning with `#` has `#` prepended; the empty text is present and does not
begin with `#`, yet it passes through unchanged, because the code guards on
truthiness (`if color_hex and ...`) rather than presence. -/
theorem c6_counterexample :
    normColorHex (some (.jstr [])) = .ok (some []) ∧
    pyStartsWith [] ['#'] = false ∧
    (some ([] : Str)) ≠ some ('#' :: []) :=
  ⟨rfl, rfl, by decide⟩

/-- C6 (amended): a present, non-empty text value that does not begin with
`#` has `#` prepended; a value beginning with `#` and the empty text are
unchanged; a missing key yields null; and no hex-digit well-formedness is
checked (every text value is accepted): `"FF00FF"` becomes `"#FF00FF"` and
`"#00FF00"` is unchanged. -/
theorem c6_colorhex_normalization :
    (∀ s, s ≠ [] → pyStartsWith s ['#'] = false →
      normColorHex (some (.jstr s)) = .ok (some ('#' :: s))) ∧
    (∀ s, pyStartsWith s ['#'] = true → normColorHex (some (.jstr s)) = .ok (some s)) ∧
    normColorHex (some (.jstr [])) = .ok (some []) ∧
    normColorHex none = .ok none ∧
    normColorHex (some (.jstr ("FF00FF".data))) = .ok (some ("#FF00FF".data)) ∧
    normColorHex (some (.jstr ("#00FF00".data))) = .ok (some ("#00FF00".data)) := by
  refine ⟨?_, ?_, rfl, rfl, rfl, rfl⟩
  · intro s h1 h2
    simp only [normColorHex]
    rw [if_pos ⟨h1, h2⟩]
  · intro s h
    exact normColorHex_of_shape s (.inr h)

/-- C6 witness: the amended theorem's prepend case applied at a concrete
non-empty text value. -/
theorem c6_colorhex_normalization_witness :
    normColorHex (some (.jstr ("ABC".data))) = .ok (some ('#' :: "ABC".data)) :=
  c6_colorhex_normalization.1 (("ABC".data)) (by decide) (by decide)

/-- C7: weight normalization and free-text pass-through: a present non-text
weight is converted to its Python text representation, a text weight passes
through unchanged, a missing key stays null; and in every successful
normalization the brand, material and colorName record fields are exactly
the pass-through of the corresponding mapping values (null when absent). -/
theorem c7_weight_and_passthrough :
    (∀ v, isJStr v = false → normWeight (some v) = some (pyStr v)) ∧
    (∀ s, normWeight (some (.jstr s)) = some s) ∧
    normWeight none = none ∧
    (∀ s, validateStrField (some (.jstr s)) = .ok (some s)) ∧
    validateStrField none = .ok none ∧
    (∀ data r, validate_and_normalize data = .ok r →
      validateStrField (pyGet data brandKey) = .ok r.brand ∧
      validateStrField (pyGet data materialKey) = .ok r.material ∧
      validateStrField (pyGet data colorNameKey) = .ok r.colorName ∧
      r.weight = normWeight (pyGet data weightKey)) := by
  refine ⟨?_, fun s => rfl, rfl, fun s => rfl, rfl, ?_⟩
  · intro v h
    cases v with
    | jstr s => simp [isJStr] at h
    | jnull => rfl
    | jbool b => rfl
    | jint n => rfl
    | jfloat q => rfl
    | jarr xs => rfl
    | jobj kvs => rfl
  · intro data r h
    obtain ⟨hd, hw, hch, hb, hm, hcn, ht⟩ := validate_ok_inv data r h
    exact ⟨hb, hm, hcn, hw⟩

/-- C7 witness: the non-text clause applied at the JSON integer 1000; its
text representation is `"1000"`. -/
theorem c7_weight_and_passthrough_witness :
    normWeight (some (.jint 1000)) = some ("1000".data) :=
  (c7_weight_and_passthrough.1 (.jint 1000) rfl).trans (by decide)

/-- C8: normalization is idempotent: if normalizing a parsed mapping yields
a record, then normalizing the mapping of that record's field values yields
the identical record. -/
theorem c8_normalization_idempotent (data : Jobj) (r : RecognizedFilamentData)
    (h : validate_and_normalize data = .ok r) :
    validate_and_normalize (recordToObj r) = .ok r := by
  obtain ⟨hd, hw, hch, hb, hm, hcn, ht⟩ := validate_ok_inv data r h
  have gb : validateStrField (pyGet (recordToObj r) brandKey) = .ok r.brand := by
    rw [pyGet_recordToObj_brand, validateStrField_map_jstr]
  have gm : validateStrField (pyGet (recordToObj r) materialKey) = .ok r.material := by
    rw [pyGet_recordToObj_material, validateStrField_map_jstr]
  have gcn : validateStrField (pyGet (recordToObj r) colorNameKey) = .ok r.colorName := by
    rw [pyGet_recordToObj_colorName, validateStrField_map_jstr]
  have gch : normColorHex (pyGet (recordToObj r) colorHexKey) = .ok r.colorHex := by
    rw [pyGet_recordToObj_colorHex]
    exact normColorHex_map_jstr _ _ hch
  have gw : normWeight (pyGet (recordToObj r) weightKey) = r.weight := by
    rw [pyGet_recordToObj_weight, normWeight_map_jstr]
  have gd : normDiameter (pyGet (recordToObj r) diameterKey) = r.diameter := by
    rw [pyGet_recordToObj_diameter]
    exact normDiameter_map_jfloat _ _ hd.symm
  simp only [validate_and_normalize, gch, gb, gm, gcn, gw, gd]
  rw [← ht]

/-- C8 witness: the theorem applied at a concrete parsed mapping whose
normalization prepends `#` to the colorHex and parses the diameter text. -/
theorem c8_normalization_idempotent_witness :
    validate_and_normalize
        (recordToObj ⟨none, none, none, some ('#' :: 'A' :: []), none, some d285, none⟩) =
      .ok ⟨none, none, none, some ('#' :: 'A' :: []), none, some d285, none⟩ :=
  c8_normalization_idempotent
    [(colorHexKey, .jstr ['A']), (diameterKey, .jstr ("2.85".data))] _ rfl

/-- C9: the result object never mixes `success=false` with populated data:
every endpoint outcome either has `success=true` with data and confidence
and no error, or `success=false` with an error and neither data nor
confidence; every core-level error value is converted into exactly that
structured failure shape, and the global handler's internal-error response
has the failure shape as well. -/
theorem c9_response_shape :
    (∀ outcome,
      ((recognize_filament outcome).success = true ∧
        (recognize_filament outcome).data ≠ none ∧
        (recognize_filament outcome).confidence ≠ none ∧
        (recognize_filament outcome).error = none) ∨
      ((recognize_filament outcome).success = false ∧
        (recognize_filament outcome).data = none ∧
        (recognize_filament outcome).confidence = none ∧
        (recognize_filament outcome).error ≠ none)) ∧
    (∀ e, recognize_filament (.error e) =
      { success := false, data := none, confidence := none, error := some e }) ∧
    (internalErrorResponse.success = false ∧ internalErrorResponse.data = none ∧
      internalErrorResponse.confidence = none ∧ internalErrorResponse.error ≠ none) := by
  refine ⟨?_, fun e => rfl, ⟨rfl, rfl, rfl, by simp [internalErrorResponse]⟩⟩
  intro outcome
  cases outcome with
  | ok p =>
    obtain ⟨d, c⟩ := p
    left
    exact ⟨rfl, by simp [recognize_filament], by simp [recognize_filament], rfl⟩
  | error e =>
    right
    exact ⟨rfl, rfl, rfl, by simp [recognize_filament]⟩

/-- C10 counterexample: the claim asserts normalization never raises for any
mapping whose diameter, weight and colorHex are well-shaped, regardless of
the other fields; but a mapping whose brand is a JSON array — with diameter,
weight and colorHex all null — makes the record construction fail
validation, i.e. normalization raises. -/
theorem c10_counterexample :
    validate_and_normalize [(brandKey, .jarr [])] = .error strFieldErr ∧
    isNumTextOrNull (pyGet [(brandKey, .jarr [])] diameterKey) = true ∧
    isScalarOrNull (pyGet [(brandKey, .jarr [])] weightKey) = true ∧
    isTextOrNull (pyGet [(brandKey, .jarr [])] colorHexKey) = true :=
  ⟨rfl, rfl, rfl, rfl⟩

/-- C10 (amended): normalization is total and domain-constraining once the
free-text fields are also well-shaped: for every mapping whose brand,
material, colorName and colorHex values are each null or text (the diameter
and weight normalizations are total for values of any shape), normalization
returns a record without raising, the record's diameter is exactly 1.75,
exactly 2.85 or null, and its weight is text or null. -/
theorem c10_normalization_total_on_wellshaped (data : Jobj)
    (hb : isTextOrNull (pyGet data brandKey) = true)
    (hm : isTextOrNull (pyGet data materialKey) = true)
    (hcn : isTextOrNull (pyGet data colorNameKey) = true)
    (hch : isTextOrNull (pyGet data colorHexKey) = true) :
    ∃ r, validate_and_normalize data = .ok r ∧
      (r.diameter = none ∨ r.diameter = some d175 ∨ r.diameter = some d285) ∧
      (r.weight = none ∨ ∃ s, r.weight = some s) := by
  obtain ⟨ob, hob⟩ := validateStrField_ok_of _ hb
  obtain ⟨om, hom⟩ := validateStrField_ok_of _ hm
  obtain ⟨ocn, hocn⟩ := validateStrField_ok_of _ hcn
  obtain ⟨och, hoch⟩ := normColorHex_ok_of _ hch
  refine ⟨⟨ob, om, ocn, och, normWeight (pyGet data weightKey),
    normDiameter (pyGet data diameterKey), none⟩, ?_, ?_, ?_⟩
  · simp only [validate_and_normalize, hob, hom, hocn, hoch]
  · cases hdm : normDiameter (pyGet data diameterKey) with
    | none => exact .inl rfl
    | some q =>
      rcases normDiameter_mem _ q hdm with h1 | h1 <;> rw [h1]
      · exact .inr (.inl rfl)
      · exact .inr (.inr rfl)
  · cases normWeight (pyGet data weightKey) with
    | none => exact .inl rfl
    | some s => exact .inr ⟨s, rfl⟩

/-- C10 witness: the amended theorem applied at a concrete mapping with a
text brand and an off-domain numeric diameter. -/
theorem c10_normalization_total_on_wellshaped_witness :
    ∃ r, validate_and_normalize
        [(brandKey, .jstr ['X']), (diameterKey, .jfloat (mkRat 3 1))] = .ok r ∧
      (r.diameter = none ∨ r.diameter = some d175 ∨ r.diameter = some d285) ∧
      (r.weight = none ∨ ∃ s, r.weight = some s) :=
  c10_normalization_total_on_wellshaped
    [(brandKey, .jstr ['X']), (diameterKey, .jfloat (mkRat 3 1))] rfl rfl rfl rfl
